import Mathlib

set_option maxRecDepth 8192

/-!
Verification of the audio capture and recording lifecycle controller of the
whisper-clipboard repository, shallowly embedded from the Python sources
`src/whisperclipboard/manual_audio_recorder.py` (class `ManualAudioRecorder`)
and `src/audio_recorder.py` (class `AudioRecorder`).

Audio samples (float32 in the source) are modelled by an arbitrary type `α`
where only ordering and concatenation of frames matter, and by `ℝ` for the
energy computation of the voice-activity detector.  Durations (sample count
divided by the sample rate) are modelled exactly in `ℚ`.

Side effects of the source (invoking the `on_recording_start` /
`on_recording_stop` callbacks, either inline or on a freshly spawned
`threading.Thread`) are recorded in explicit event lists, each event tagged
with the dispatch mechanism the source uses at that call site.
-/

namespace WhisperClipboard

/-- How a lifecycle callback is dispatched at a given call site of the source:
`sync` is a plain inline call on the current thread, `newThread` is
`threading.Thread(target=..., daemon=True).start()`. -/
inductive DispatchMode where
  | sync
  | newThread
deriving DecidableEq

variable {α : Type}

/-- State of `ManualAudioRecorder` relevant to the recording lifecycle:
`is_recording`, `audio_buffer` (list of captured frames in capture order),
`stop_recording_event` (the `threading.Event`), and a count of capture
threads spawned so far (each `threading.Thread(...) ... .start()` in
`start_recording` increments it). -/
structure RecorderState (α : Type) where
  is_recording : Bool
  audio_buffer : List (List α)
  stop_recording_event : Bool
  threads_spawned : Nat
deriving DecidableEq

/-- Result of `ManualAudioRecorder.start_recording`: the Python return value,
the successor state, and the dispatches of `on_recording_start` performed. -/
structure StartResult (α : Type) where
  retval : Bool
  state : RecorderState α
  on_start_events : List DispatchMode
deriving DecidableEq

/-- Result of `ManualAudioRecorder.stop_recording`: the Python return value,
the successor state, the Completed Utterance (the concatenated waveform, when
one is produced), its duration in seconds, and the dispatches of
`on_recording_stop` performed (each carrying the waveform passed to it). -/
structure StopResult (α : Type) where
  retval : Bool
  state : RecorderState α
  utterance : Option (List α)
  duration : Option ℚ
  on_stop_events : List (DispatchMode × List α)
deriving DecidableEq

/-- Result of `ManualAudioRecorder.cancel_recording`: the successor state and
the dispatches of `on_recording_stop` performed (the source body contains no
callback invocation, so the event list it emits is always empty). -/
structure CancelResult (α : Type) where
  state : RecorderState α
  on_stop_events : List (DispatchMode × List α)
deriving DecidableEq

/-- One iteration's outcome of `self.stream.read` in the capture loop of
`_recording_worker`: either a frame of samples, or an exception from the
device (the loop logs it and breaks). -/
inductive ReadResult (α : Type) where
  | frame (data : List α)
  | fatalError
deriving DecidableEq

/-- `ManualAudioRecorder.start_recording` (lines 175-203).  If already
recording it logs a warning and returns `False`, touching nothing.
Otherwise it clears `audio_buffer`, clears `stop_recording_event`, sets
`is_recording`, spawns the capture thread, then calls
`self.on_recording_start()` inline (a synchronous dispatch) when that
callback is registered, and returns `True`. -/
def start_recording (has_on_start : Bool) (s : RecorderState α) : StartResult α :=
  if s.is_recording then
    { retval := false, state := s, on_start_events := [] }
  else
    { retval := true
      state :=
        { is_recording := true
          audio_buffer := []
          stop_recording_event := false
          threads_spawned := s.threads_spawned + 1 }
      on_start_events := if has_on_start then [DispatchMode.sync] else [] }

/-- `ManualAudioRecorder.stop_recording` (lines 205-246).  If not recording
it logs a warning and returns `False`.  Otherwise it sets the stop event,
clears `is_recording`, joins the capture thread, and then: if the buffer is
non-empty it concatenates the frames (`np.concatenate`), computes the
duration as sample count over sample rate, calls
`self.on_recording_stop(combined_audio)` inline (a synchronous dispatch)
when registered, and returns `True`; if the buffer is empty it logs
"No audio data recorded" and returns `False` without any callback.  In
neither branch is `audio_buffer` cleared. -/
def stop_recording (sample_rate : Nat) (has_on_stop : Bool) (s : RecorderState α) :
    StopResult α :=
  if !s.is_recording then
    { retval := false, state := s, utterance := none, duration := none, on_stop_events := [] }
  else
    let s1 : RecorderState α := { s with stop_recording_event := true, is_recording := false }
    if s1.audio_buffer.isEmpty then
      { retval := false, state := s1, utterance := none, duration := none, on_stop_events := [] }
    else
      let combined : List α := s1.audio_buffer.flatten
      { retval := true
        state := s1
        utterance := some combined
        duration := some ((combined.length : ℚ) / (sample_rate : ℚ))
        on_stop_events := if has_on_stop then [(DispatchMode.sync, combined)] else [] }

/-- `ManualAudioRecorder.cancel_recording` (lines 248-263).  If not recording
it returns immediately.  Otherwise it sets the stop event, clears
`is_recording`, joins the capture thread, and clears `audio_buffer` without
processing; no callback is invoked and no waveform is produced. -/
def cancel_recording (s : RecorderState α) : CancelResult α :=
  if !s.is_recording then
    { state := s, on_stop_events := [] }
  else
    { state :=
        { s with stop_recording_event := true, is_recording := false, audio_buffer := [] }
      on_stop_events := [] }

/-- The capture loop of `ManualAudioRecorder._recording_worker` (lines
134-161): `while not self.stop_recording_event.is_set():` read one frame and
append it to the buffer; a read exception breaks out of the loop.  `flag i`
is the value of the stop event observed by the check at the start of
iteration `i` (the flag is written by the controller thread and, once set,
stays set).  `reads` is the stream of outcomes the device would deliver to
successive reads.  Returns the final buffer together with the number of
reads the loop performed. -/
def recording_worker (flag : Nat → Bool) :
    Nat → List (ReadResult α) → List (List α) → List (List α) × Nat
  | i, reads, buf =>
    if flag i then (buf, 0)
    else
      match reads with
      | [] => (buf, 0)
      | ReadResult.frame data :: rest =>
        let r := recording_worker flag (i + 1) rest (buf ++ [data])
        (r.1, r.2 + 1)
      | ReadResult.fatalError :: _ => (buf, 1)

/-- State of `AudioRecorder` (the voice-activity-detection variant) relevant
to callback dispatch: `is_recording`, the `audio_data` frame buffer, and the
silence timer. -/
structure AutoRecorderState (α : Type) where
  is_recording : Bool
  audio_data : List (List α)
  silence_start_time : Option ℚ
deriving DecidableEq

/-- Callback dispatches performed by one `AudioRecorder` operation. -/
structure AutoEvents (α : Type) where
  on_start_events : List DispatchMode
  on_stop_events : List (DispatchMode × List α)
deriving DecidableEq

/-- `AudioRecorder._handle_voice_detected` (lines 153-173).  If not yet
recording it sets `is_recording`, clears the buffer, and dispatches
`on_recording_start` on a fresh daemon thread when registered; then it
appends the chunk and resets the silence timer. -/
def handle_voice_detected (has_on_start : Bool) (audio_chunk : List α)
    (s : AutoRecorderState α) : AutoRecorderState α × AutoEvents α :=
  if s.is_recording then
    ({ s with audio_data := s.audio_data ++ [audio_chunk], silence_start_time := none },
     { on_start_events := [], on_stop_events := [] })
  else
    ({ is_recording := true
       audio_data := [audio_chunk]
       silence_start_time := none },
     { on_start_events := if has_on_start then [DispatchMode.newThread] else []
       on_stop_events := [] })

/-- `AudioRecorder._stop_recording_internal` (lines 189-214).  If recording,
it clears `is_recording` and the silence timer; with a non-empty buffer it
concatenates the frames, clears the buffer, and dispatches
`on_recording_stop(combined)` on a fresh daemon thread when registered. -/
def stop_recording_internal (has_on_stop : Bool) (s : AutoRecorderState α) :
    AutoRecorderState α × AutoEvents α × Option (List α) :=
  if !s.is_recording then
    (s, { on_start_events := [], on_stop_events := [] }, none)
  else
    if s.audio_data.isEmpty then
      ({ s with is_recording := false, silence_start_time := none },
       { on_start_events := [], on_stop_events := [] }, none)
    else
      let combined : List α := s.audio_data.flatten
      ({ is_recording := false, audio_data := [], silence_start_time := none },
       { on_start_events := []
         on_stop_events := if has_on_stop then [(DispatchMode.newThread, combined)] else [] },
       some combined)

/-- `AudioRecorder._detect_voice_activity` (lines 139-151):
`rms = np.sqrt(np.mean(audio_chunk ** 2)); return rms > self.vad_threshold`,
where `np.mean` of the squared chunk is the sum of the squared samples over
the length. -/
def detect_voice_activity (vad_threshold : ℝ) (audio_chunk : List ℝ) : Prop :=
  Real.sqrt ((audio_chunk.map fun x => x * x).sum / (audio_chunk.length : ℝ)) > vad_threshold

/-- Device-index validation slice of `_initialize_audio` (identical in
`manual_audio_recorder.py` lines 88-92 and `audio_recorder.py` lines 66-70):
when a device index is configured and `self.device_index >= device_count`,
it is replaced by `None` (the platform default); otherwise it is kept.
Initialization itself does not fail on the index check. -/
def initialize_audio_device_index (device_index : Option Int) (device_count : Nat) :
    Option Int :=
  match device_index with
  | none => none
  | some i => if i ≥ (device_count : Int) then none else some i

theorem recording_worker_frames (fs : List (List α)) (i : Nat) (buf : List (List α)) :
    recording_worker (fun _ => false) i (fs.map ReadResult.frame) buf =
      (buf ++ fs, fs.length) := by
  induction fs generalizing i buf with
  | nil => simp [recording_worker]
  | cons f fs ih =>
    simp [recording_worker, ih (i + 1) (buf ++ [f])]

theorem recording_worker_frames_fatal (fs : List (List α)) (rest : List (ReadResult α))
    (i : Nat) (buf : List (List α)) :
    recording_worker (fun _ => false) i
        (fs.map ReadResult.frame ++ ReadResult.fatalError :: rest) buf =
      (buf ++ fs, fs.length + 1) := by
  induction fs generalizing i buf with
  | nil => simp [recording_worker]
  | cons f fs ih =>
    simp [recording_worker, ih (i + 1) (buf ++ [f])]

theorem recording_worker_reads_le (flag : Nat → Bool) :
    ∀ (k i : Nat) (reads : List (ReadResult α)) (buf : List (List α)),
      (∀ j, i + k ≤ j → flag j = true) →
      (recording_worker flag i reads buf).2 ≤ k := by
  intro k
  induction k with
  | zero =>
    intro i reads buf h
    have hf : flag i = true := h i (by omega)
    cases reads with
    | nil => simp [recording_worker, hf]
    | cons r rest => cases r <;> simp [recording_worker, hf]
  | succ k ih =>
    intro i reads buf h
    cases reads with
    | nil =>
      cases hf : flag i <;> simp [recording_worker, hf]
    | cons r rest =>
      cases hf : flag i with
      | true => cases r <;> simp [recording_worker, hf]
      | false =>
        cases r with
        | frame data =>
          have hrec := ih (i + 1) rest (buf ++ [data]) (fun j hj => h j (by omega))
          simp only [recording_worker, hf, Bool.false_eq_true, if_false]
          omega
        | fatalError => simp [recording_worker, hf]

theorem flatten_length_of_uniform (fs : List (List α)) (F : Nat)
    (hF : ∀ f ∈ fs, f.length = F) : fs.flatten.length = fs.length * F := by
  induction fs with
  | nil => simp
  | cons f fs ih =>
    have hf : f.length = F := hF f (by simp)
    have ihx := ih (fun g hg => hF g (by simp [hg]))
    simp [hf, ihx, Nat.succ_mul]
    omega

/-- C1: for every recording session, `cancel_recording` called while recording
discards the buffered frames, dispatches no `on_recording_stop` callback, and
never yields a Completed Utterance for that session: the buffer is cleared,
recording stops, and any subsequent `stop_recording` on the cancelled session
produces no utterance and no callback dispatch. -/
theorem cancel_discards_and_yields_nothing (sample_rate : Nat) (has_on_stop : Bool)
    (s : RecorderState α) (hrec : s.is_recording = true) :
    (cancel_recording s).state.audio_buffer = [] ∧
    (cancel_recording s).state.is_recording = false ∧
    (cancel_recording s).on_stop_events = [] ∧
    (stop_recording sample_rate has_on_stop (cancel_recording s).state).utterance = none ∧
    (stop_recording sample_rate has_on_stop (cancel_recording s).state).on_stop_events
      = [] := by
  simp [cancel_recording, stop_recording, hrec]

/-- C1 witness: cancelling a concrete in-progress session holding two frames. -/
theorem cancel_discards_and_yields_nothing_witness :
    (cancel_recording (α := Int) ⟨true, [[1, 2], [3]], false, 1⟩).state.audio_buffer = [] ∧
    (cancel_recording (α := Int) ⟨true, [[1, 2], [3]], false, 1⟩).state.is_recording = false ∧
    (cancel_recording (α := Int) ⟨true, [[1, 2], [3]], false, 1⟩).on_stop_events = [] ∧
    (stop_recording 16000 true
      (cancel_recording (α := Int) ⟨true, [[1, 2], [3]], false, 1⟩).state).utterance = none ∧
    (stop_recording 16000 true
      (cancel_recording (α := Int) ⟨true, [[1, 2], [3]], false, 1⟩).state).on_stop_events
      = [] :=
  cancel_discards_and_yields_nothing 16000 true ⟨true, [[1, 2], [3]], false, 1⟩ rfl

/-- C2: for a session whose buffer holds `N` frames of `F` samples each
(`N` positive), `stop_recording` produces the Completed Utterance that is the
concatenation of the frames in capture order, of exactly `N * F` samples,
with duration equal to the sample count divided by the sample rate. -/
theorem stop_concatenates_frames (sample_rate : Nat) (has_on_stop : Bool)
    (s : RecorderState α) (N F : Nat)
    (hrec : s.is_recording = true)
    (hN : s.audio_buffer.length = N)
    (hF : ∀ f ∈ s.audio_buffer, f.length = F)
    (hpos : 0 < N) :
    (stop_recording sample_rate has_on_stop s).utterance = some s.audio_buffer.flatten ∧
    s.audio_buffer.flatten.length = N * F ∧
    (stop_recording sample_rate has_on_stop s).duration
      = some (((N * F : Nat) : ℚ) / (sample_rate : ℚ)) := by
  have hlen : s.audio_buffer.flatten.length = N * F := by
    rw [flatten_length_of_uniform s.audio_buffer F hF, hN]
  have hne : s.audio_buffer.isEmpty = false := by
    cases hb : s.audio_buffer with
    | nil => rw [hb] at hN; simp at hN; omega
    | cons f fs => simp
  refine ⟨?_, hlen, ?_⟩
  · simp [stop_recording, hrec, hne]
  · simp [stop_recording, hrec, hne, hlen]

/-- C2 witness: 10 frames of 1024 samples each at sample rate 16000 yield a
waveform of 10240 samples and a duration of 0.64 seconds. -/
theorem stop_concatenates_frames_witness :
    ((stop_recording 16000 true
        ⟨true, List.replicate 10 (List.replicate 1024 (0 : Int)), false, 1⟩).utterance
      = some (List.replicate 10 (List.replicate 1024 (0 : Int))).flatten ∧
    (List.replicate 10 (List.replicate 1024 (0 : Int))).flatten.length = 10 * 1024 ∧
    (stop_recording 16000 true
        ⟨true, List.replicate 10 (List.replicate 1024 (0 : Int)), false, 1⟩).duration
      = some (((10 * 1024 : Nat) : ℚ) / (16000 : ℚ))) ∧
    10 * 1024 = 10240 ∧
    ((10 * 1024 : Nat) : ℚ) / (16000 : ℚ) = 16 / 25 :=
  ⟨stop_concatenates_frames 16000 true
      ⟨true, List.replicate 10 (List.replicate 1024 (0 : Int)), false, 1⟩ 10 1024 rfl
      (by simp)
      (by intro f hf; rw [List.eq_of_mem_replicate hf]; simp)
      (by norm_num),
    by norm_num, by norm_num⟩

/-- C3: `start_recording` while a recording is already active returns `False`
(the AlreadyActive rejection) and leaves the in-progress session unchanged:
the whole state, in particular the buffer, the stop flag, and the number of
spawned capture threads, is untouched, and no `on_recording_start` callback
is dispatched. -/
theorem start_while_recording_rejected (has_on_start : Bool) (s : RecorderState α)
    (hrec : s.is_recording = true) :
    (start_recording has_on_start s).retval = false ∧
    (start_recording has_on_start s).state = s ∧
    (start_recording has_on_start s).state.audio_buffer = s.audio_buffer ∧
    (start_recording has_on_start s).state.stop_recording_event = s.stop_recording_event ∧
    (start_recording has_on_start s).state.threads_spawned = s.threads_spawned ∧
    (start_recording has_on_start s).on_start_events = [] := by
  simp [start_recording, hrec]

/-- C3 witness: a second `start_recording` against a concrete active session. -/
theorem start_while_recording_rejected_witness :
    (start_recording (α := Int) true ⟨true, [[7]], false, 1⟩).retval = false ∧
    (start_recording (α := Int) true ⟨true, [[7]], false, 1⟩).state
      = ⟨true, [[7]], false, 1⟩ ∧
    (start_recording (α := Int) true ⟨true, [[7]], false, 1⟩).state.audio_buffer
      = (⟨true, [[7]], false, 1⟩ : RecorderState Int).audio_buffer ∧
    (start_recording (α := Int) true ⟨true, [[7]], false, 1⟩).state.stop_recording_event
      = (⟨true, [[7]], false, 1⟩ : RecorderState Int).stop_recording_event ∧
    (start_recording (α := Int) true ⟨true, [[7]], false, 1⟩).state.threads_spawned
      = (⟨true, [[7]], false, 1⟩ : RecorderState Int).threads_spawned ∧
    (start_recording (α := Int) true ⟨true, [[7]], false, 1⟩).on_start_events = [] :=
  start_while_recording_rejected true ⟨true, [[7]], false, 1⟩ rfl

/-- C4: stopping a session that captured zero frames produces no Completed
Utterance and dispatches no `on_recording_stop` callback, yet still returns
the state machine to Idle (`is_recording` becomes `false`); the caller is
notified by the `False` return value (the empty-result signal of the source),
not by an exception (the embedded function is total). -/
theorem stop_zero_frames_idle (sample_rate : Nat) (has_on_stop : Bool)
    (s : RecorderState α) (hrec : s.is_recording = true)
    (hbuf : s.audio_buffer = []) :
    (stop_recording sample_rate has_on_stop s).utterance = none ∧
    (stop_recording sample_rate has_on_stop s).on_stop_events = [] ∧
    (stop_recording sample_rate has_on_stop s).state.is_recording = false ∧
    (stop_recording sample_rate has_on_stop s).retval = false := by
  simp [stop_recording, hrec, hbuf]

/-- C4 witness: immediate stop after start on a concrete empty session. -/
theorem stop_zero_frames_idle_witness :
    (stop_recording (α := Int) 16000 true ⟨true, [], false, 1⟩).utterance = none ∧
    (stop_recording (α := Int) 16000 true ⟨true, [], false, 1⟩).on_stop_events = [] ∧
    (stop_recording (α := Int) 16000 true ⟨true, [], false, 1⟩).state.is_recording = false ∧
    (stop_recording (α := Int) 16000 true ⟨true, [], false, 1⟩).retval = false :=
  stop_zero_frames_idle 16000 true ⟨true, [], false, 1⟩ rfl rfl

/-- C5: when a fatal device read error ends the capture loop early after the
frames `frames` have been appended (the loop breaks on the exception and
reads nothing further), the subsequent `stop_recording` produces a Completed
Utterance containing exactly those frames, and no error is surfaced to the
caller (`stop_recording` returns `True`; the embedded function is total). -/
theorem fatal_error_partial_utterance (sample_rate : Nat) (has_on_stop : Bool)
    (frames : List (List α)) (rest : List (ReadResult α)) (s : RecorderState α)
    (hrec : s.is_recording = true)
    (hbuf : s.audio_buffer =
      (recording_worker (fun _ => false) 0
        (frames.map ReadResult.frame ++ ReadResult.fatalError :: rest) []).1)
    (hne : frames ≠ []) :
    s.audio_buffer = frames ∧
    (stop_recording sample_rate has_on_stop s).utterance = some frames.flatten ∧
    (stop_recording sample_rate has_on_stop s).retval = true := by
  have hfr : s.audio_buffer = frames := by
    rw [hbuf, recording_worker_frames_fatal]
    simp
  have hne2 : frames.isEmpty = false := by
    cases frames with
    | nil => exact absurd rfl hne
    | cons f fs => simp
  refine ⟨hfr, ?_, ?_⟩
  · simp [stop_recording, hrec, hfr, hne2]
  · simp [stop_recording, hrec, hfr, hne2]

/-- C5 witness: a fatal read fault after 5 frames yields a Completed
Utterance containing exactly those 5 frames. -/
theorem fatal_error_partial_utterance_witness :
    (⟨true, [[1], [2], [3], [4], [5]], false, 1⟩ : RecorderState Int).audio_buffer
      = [[1], [2], [3], [4], [5]] ∧
    (stop_recording 16000 true
        (⟨true, [[1], [2], [3], [4], [5]], false, 1⟩ : RecorderState Int)).utterance
      = some ([[1], [2], [3], [4], [5]] : List (List Int)).flatten ∧
    (stop_recording 16000 true
        (⟨true, [[1], [2], [3], [4], [5]], false, 1⟩ : RecorderState Int)).retval = true :=
  fatal_error_partial_utterance 16000 true [[1], [2], [3], [4], [5]] [] _ rfl
    (by rw [recording_worker_frames_fatal]; rfl) (by simp)

/-- C6 counterexample: the claim that the lifecycle callbacks are always
dispatched asynchronously on independent worker threads is false for
`ManualAudioRecorder`: at a concrete idle state, `start_recording` invokes a
registered `on_recording_start` inline (`DispatchMode.sync`), and at a
concrete recording state `stop_recording` invokes a registered
`on_recording_stop` inline, and `sync` is not `newThread`. -/
theorem callbacks_sync_in_manual_cex :
    (start_recording (α := Int) true ⟨false, [], false, 0⟩).on_start_events
      = [DispatchMode.sync] ∧
    (stop_recording (α := Int) 16000 true ⟨true, [[1]], false, 1⟩).on_stop_events
      = [(DispatchMode.sync, [1])] ∧
    DispatchMode.sync ≠ DispatchMode.newThread := by
  refine ⟨rfl, by decide, by decide⟩

/-- C6 amended: the voice-activity recorder `AudioRecorder` dispatches
`on_recording_start` and `on_recording_stop` on freshly spawned daemon worker
threads, while `ManualAudioRecorder` invokes both callbacks synchronously on
the calling thread: every dispatch emitted by `handle_voice_detected` and
`stop_recording_internal` is `newThread`, and every dispatch emitted by
`start_recording` and `stop_recording` is `sync`. -/
theorem callbacks_dispatch_modes (has_on_start has_on_stop : Bool)
    (audio_chunk : List α) (sa : AutoRecorderState α) (sample_rate : Nat)
    (s : RecorderState α) :
    ((handle_voice_detected has_on_start audio_chunk sa).2.on_start_events.all
      fun m => decide (m = DispatchMode.newThread)) = true ∧
    ((stop_recording_internal has_on_stop sa).2.1.on_stop_events.all
      fun e => decide (e.1 = DispatchMode.newThread)) = true ∧
    ((start_recording has_on_start s).on_start_events.all
      fun m => decide (m = DispatchMode.sync)) = true ∧
    ((stop_recording sample_rate has_on_stop s).on_stop_events.all
      fun e => decide (e.1 = DispatchMode.sync)) = true := by
  refine ⟨?_, ?_, ?_, ?_⟩
  · cases h : sa.is_recording <;> cases has_on_start <;>
      simp [handle_voice_detected, h]
  · cases h : sa.is_recording with
    | false => simp [stop_recording_internal, h]
    | true =>
      cases hE : sa.audio_data.isEmpty <;> cases has_on_stop <;>
        simp [stop_recording_internal, h, hE]
  · cases h : s.is_recording <;> cases has_on_start <;>
      simp [start_recording, h]
  · cases h : s.is_recording with
    | false => simp [stop_recording, h]
    | true =>
      cases hE : s.audio_buffer.isEmpty <;> cases has_on_stop <;>
        simp [stop_recording, h, hE]

/-- C7: once the stop/cancel flag has been set, the capture loop performs at
most one more frame read before exiting.  `flag` is the value of the stop
event as observed by the check opening each loop iteration; the flag being
set during iteration `t` makes it visible to every check from iteration
`t + 1` on.  Then the loop performs at most `t + 1` reads in total, hence at
most one read beyond the `t` iterations that preceded the signal, and the
extra capture time is bounded by one frame-read period,
`chunk_size / sample_rate` seconds. -/
theorem stop_flag_observed_within_one_read (flag : Nat → Bool)
    (reads : List (ReadResult α)) (buf : List (List α))
    (t chunk_size sample_rate : Nat)
    (hset : ∀ j, t < j → flag j = true) :
    (recording_worker flag 0 reads buf).2 ≤ t + 1 ∧
    (recording_worker flag 0 reads buf).2 - t ≤ 1 ∧
    (((recording_worker flag 0 reads buf).2 - t : Nat) : ℚ)
        * ((chunk_size : ℚ) / (sample_rate : ℚ))
      ≤ (chunk_size : ℚ) / (sample_rate : ℚ) := by
  have h1 : (recording_worker flag 0 reads buf).2 ≤ t + 1 := by
    refine recording_worker_reads_le flag (t + 1) 0 reads buf ?_
    intro j hj
    exact hset j (by omega)
  have h2 : (recording_worker flag 0 reads buf).2 - t ≤ 1 := by omega
  refine ⟨h1, h2, ?_⟩
  have hq : (((recording_worker flag 0 reads buf).2 - t : Nat) : ℚ) ≤ 1 := by
    exact_mod_cast h2
  have hp : (0 : ℚ) ≤ (chunk_size : ℚ) / (sample_rate : ℚ) := by positivity
  exact mul_le_of_le_one_left hp hq

/-- C7 witness: a flag already set before iteration 0 stops the loop with
zero further reads, within the one-read bound. -/
theorem stop_flag_observed_within_one_read_witness :
    (recording_worker (α := Int) (fun _ => true) 0 [ReadResult.frame [3]] []).2 ≤ 0 + 1 ∧
    (recording_worker (α := Int) (fun _ => true) 0 [ReadResult.frame [3]] []).2 - 0 ≤ 1 ∧
    (((recording_worker (α := Int) (fun _ => true) 0 [ReadResult.frame [3]] []).2 - 0
        : Nat) : ℚ) * ((1024 : ℚ) / (16000 : ℚ))
      ≤ (1024 : ℚ) / (16000 : ℚ) :=
  stop_flag_observed_within_one_read (fun _ => true) [ReadResult.frame [3]] [] 0 1024 16000
    (fun _ _ => rfl)

/-- C8: voice-activity classification is a pure function of one audio frame
and the configured threshold: a frame is classified as voice if and only if
its root-mean-square energy, the square root of the mean of the squared
samples, exceeds the threshold; equivalently (for a nonnegative threshold)
if and only if the mean of the squared samples exceeds the squared
threshold. -/
theorem detect_voice_iff_rms (vad_threshold : ℝ) (audio_chunk : List ℝ)
    (ht : 0 ≤ vad_threshold) :
    (detect_voice_activity vad_threshold audio_chunk ↔
      Real.sqrt ((audio_chunk.map fun x => x ^ 2).sum / (audio_chunk.length : ℝ))
        > vad_threshold) ∧
    (detect_voice_activity vad_threshold audio_chunk ↔
      (audio_chunk.map fun x => x ^ 2).sum / (audio_chunk.length : ℝ)
        > vad_threshold ^ 2) := by
  have hsq : (audio_chunk.map fun x => x * x) = audio_chunk.map fun x => x ^ 2 := by
    simp [pow_two]
  refine ⟨?_, ?_⟩
  · simp only [detect_voice_activity, hsq]
  · simp only [detect_voice_activity, hsq, gt_iff_lt]
    exact Real.lt_sqrt ht

/-- C8 witness: with threshold 1/2, the two-sample frame of constant value 1
has mean square energy 1, which exceeds the squared threshold. -/
theorem detect_voice_iff_rms_witness :
    detect_voice_activity (1 / 2) [(1 : ℝ), 1] ↔
      (([(1 : ℝ), 1]).map fun x => x ^ 2).sum / (([(1 : ℝ), 1]).length : ℝ)
        > (1 / 2 : ℝ) ^ 2 :=
  (detect_voice_iff_rms (1 / 2) [(1 : ℝ), 1] (by norm_num)).2

/-- C9 counterexample: the claim that every invalid configured device index
falls back to the platform default is false: the configured index `-1` is not
the index of any available device when 2 devices exist (valid indices are 0
and 1), yet the validation of `_initialize_audio` (which only tests
`device_index >= device_count`) keeps it unchanged instead of replacing it
with `None`. -/
theorem device_index_fallback_cex :
    ¬ (0 ≤ (-1 : Int) ∧ (-1 : Int) < ((2 : Nat) : Int)) ∧
    initialize_audio_device_index (some (-1)) 2 = some (-1) ∧
    initialize_audio_device_index (some (-1)) 2 ≠ none := by
  refine ⟨by decide, by decide, by decide⟩

/-- C9 amended: a configured device index at least `device_count` (out of
range above) is replaced by `None`, the platform default, and initialization
succeeds; a configured index below `device_count` — including an invalid
negative one — is kept unchanged, and a `None` configuration stays `None`. -/
theorem device_index_fallback (i : Int) (device_count : Nat) :
    (((device_count : Nat) : Int) ≤ i →
      initialize_audio_device_index (some i) device_count = none) ∧
    (i < ((device_count : Nat) : Int) →
      initialize_audio_device_index (some i) device_count = some i) ∧
    initialize_audio_device_index none device_count = none := by
  refine ⟨?_, ?_, rfl⟩
  · intro h
    simp [initialize_audio_device_index, h]
  · intro h
    simp [initialize_audio_device_index, not_le.mpr h]

/-- C9 amended witness: with 2 devices, index 5 falls back to the default
and index 1 is kept. -/
theorem device_index_fallback_witness :
    initialize_audio_device_index (some 5) 2 = none ∧
    initialize_audio_device_index (some 1) 2 = some 1 :=
  ⟨(device_index_fallback 5 2).1 (by norm_num),
    (device_index_fallback 1 2).2.1 (by norm_num)⟩

/-- C10: a successful `stop_recording` does not empty the frame buffer (the
state it returns carries the session's frames unchanged); the frames remain
until `start_recording` or `cancel_recording` clears them (`start_recording`
on an idle recorder clears the buffer before spawning the capture thread,
and `cancel_recording` clears it); and because of that clearing, the
Completed Utterance of a session started over any stale buffer contains
exactly the frames captured by that session's capture loop. -/
theorem buffer_lifecycle (sample_rate : Nat) (cbA cbB : Bool)
    (s s1 s2 : RecorderState α) (frames : List (List α))
    (hidle : s.is_recording = false)
    (hrec2 : s2.is_recording = true)
    (hne : frames ≠ []) :
    (stop_recording sample_rate cbB s1).state.audio_buffer = s1.audio_buffer ∧
    (start_recording cbA s).state.audio_buffer = [] ∧
    (cancel_recording s2).state.audio_buffer = [] ∧
    (stop_recording sample_rate cbB
        { (start_recording cbA s).state with
            audio_buffer :=
              (recording_worker (fun _ => false) 0 (frames.map ReadResult.frame)
                ((start_recording cbA s).state.audio_buffer)).1 }).utterance
      = some frames.flatten := by
  have hne2 : frames.isEmpty = false := by
    cases frames with
    | nil => exact absurd rfl hne
    | cons f fs => simp
  refine ⟨?_, ?_, ?_, ?_⟩
  · cases h : s1.is_recording with
    | false => simp [stop_recording, h]
    | true => cases hE : s1.audio_buffer.isEmpty <;> simp [stop_recording, h, hE]
  · simp [start_recording, hidle]
  · simp [cancel_recording, hrec2]
  · simp [start_recording, hidle, recording_worker_frames, stop_recording, hne2]

/-- C10 witness: starting over a stale two-frame buffer, capturing two fresh
frames, and stopping yields exactly the fresh frames; stop preserves the
buffer of a concrete session and cancel clears another. -/
theorem buffer_lifecycle_witness :
    (stop_recording 16000 true (⟨true, [[4]], false, 1⟩ : RecorderState Int)).state.audio_buffer
      = (⟨true, [[4]], false, 1⟩ : RecorderState Int).audio_buffer ∧
    (start_recording true (⟨false, [[9, 9], [8]], true, 3⟩ : RecorderState Int)).state.audio_buffer
      = [] ∧
    (cancel_recording (⟨true, [[2]], false, 1⟩ : RecorderState Int)).state.audio_buffer = [] ∧
    (stop_recording 16000 true
        { (start_recording true (⟨false, [[9, 9], [8]], true, 3⟩ : RecorderState Int)).state with
            audio_buffer :=
              (recording_worker (fun _ => false) 0
                (([[1], [2]] : List (List Int)).map ReadResult.frame)
                ((start_recording true
                  (⟨false, [[9, 9], [8]], true, 3⟩ : RecorderState Int)).state.audio_buffer)).1 }).utterance
      = some ([[1], [2]] : List (List Int)).flatten :=
  buffer_lifecycle 16000 true true ⟨false, [[9, 9], [8]], true, 3⟩ ⟨true, [[4]], false, 1⟩
    ⟨true, [[2]], false, 1⟩ [[1], [2]] rfl rfl (by simp)

end WhisperClipboard
